import Mathlib

/-!
Shallow embedding of the langfuse-connector plugin
(`src/langfuse_connector.py`, `src/settings.py`).

The five lifecycle hooks are modelled as pure state-transition functions on
an explicit `CatState` (the per-turn conversation context), with every
remote-backend call mediated by an `Oracle` of success/failure booleans and
recorded in an event log.  Python attribute presence (`hasattr`/`delattr`)
is modelled with `Option` fields, and `try`/`except`/`finally` control flow
is mirrored branch by branch.
-/

namespace LangfuseConnector

/-- A Langfuse trace handle, identified by its backend id. -/
structure Trace where
  id : Nat
deriving DecidableEq, Repr

/-- The langfuse CallbackHandler object built in the hooks.  `hid` models
Python object identity (used by the `cb is not handler` cleanup filter);
`trace` is the handler's internal trace, populated lazily by the langfuse
library when the model is actually invoked. -/
structure CallbackHandler where
  hid : Nat
  public_key : String
  secret_key : String
  host : String
  user_id : String
  session_id : String
  trace : Option Trace
deriving DecidableEq, Repr

/-- The secondary `Langfuse(...)` client built on the explicit-trace path. -/
structure LangfuseClient where
  public_key : String
  secret_key : String
  host : String
deriving DecidableEq, Repr

/-- The loaded settings dictionary: each key may be absent
(`settings.get` returns `None`). -/
structure Settings where
  enable_tracing : Option Bool
  langfuse_public_key : Option String
  langfuse_secret_key : Option String
  langfuse_host : Option String
deriving DecidableEq, Repr

/-- `settings.get("enable_tracing", True)` — the runtime gate used by the
hooks, defaulting to `True` when the key is absent from the stored
settings. -/
def tracingEnabled (s : Settings) : Bool :=
  s.enable_tracing.getD true

/-- Python truthiness of `settings.get(key)` for the credential keys:
the key must be present and non-empty. -/
def truthyKey : Option String → Bool
  | none => false
  | some v => v != ""

/-- `settings.get("langfuse_host", "https://cloud.langfuse.com")`. -/
def Settings.hostOrDefault (s : Settings) : String :=
  s.langfuse_host.getD "https://cloud.langfuse.com"

/-- The `fast_reply` payload dictionaries, modelled as association lists. -/
abbrev Dict := List (String × String)

/-- `key in d` on a Python dict. -/
def dictHasKey (d : Dict) (k : String) : Bool :=
  d.any (fun p => p.1 == k)

/-- `d.get(key)` on a Python dict. -/
def dictGet (d : Dict) (k : String) : Option String :=
  (d.find? (fun p => p.1 == k)).map (fun p => p.2)

/-- The per-turn conversation context (the `cat` object) plus the model
bookkeeping counters `next_hid`/`next_trace_id` that supply fresh
identities for newly constructed handlers and backend traces.
`llm_callbacks` is `cat._llm.callbacks` (`none` models a missing or `None`
attribute); the four `langfuse_*` fields are the ephemeral attributes the
plugin adds to the context, with `langfuse_handler_injected` a pure
presence flag. -/
structure CatState where
  user_id : String
  session_id : String
  user_message_text : String
  llm_callbacks : Option (List Nat)
  langfuse_handler : Option CallbackHandler
  langfuse_handler_injected : Bool
  langfuse_fast_reply_trace : Option Trace
  langfuse_client : Option LangfuseClient
  next_hid : Nat
  next_trace_id : Nat
deriving DecidableEq, Repr

/-- Observable effects of a hook invocation: remote-backend calls and log
lines. -/
inductive Event where
  | handlerCreated (hid : Nat)
  | clientCreated
  | traceCreated (tid : Nat) (name user_id session_id input : String)
  | spanRecorded (tid : Nat) (name input output : String)
  | traceUpdated (tid : Nat) (output input : String)
  | handlerFlushed (hid : Nat)
  | clientFlushed
  | errorLogged
  | warningLogged
deriving DecidableEq, Repr

/-- Success/failure of each fallible operation a hook may perform; a
`false` field means the corresponding call raises and the surrounding
`except` clause (mirrored in the hook definitions) handles it. -/
structure Oracle where
  settingsLoadOk : Bool
  handlerCtorOk : Bool
  clientCtorOk : Bool
  traceCreateOk : Bool
  spanOk : Bool
  traceUpdateOk : Bool
  handlerFlushOk : Bool
  clientFlushOk : Bool
deriving DecidableEq, Repr

/-- The outgoing message object finalized by `before_cat_sends_message`:
`content` is the reply text, `langfuse_trace_id` the optional trace-id
attribute the finalizer may attach. -/
structure Message where
  content : String
  langfuse_trace_id : Option Nat
deriving DecidableEq, Repr

/-- The trace a hook resolves: the handler's internal trace first, else the
stored fast-reply trace — the shared two-step lookup of lines 114–118,
201–203 and 278–281 of the source. -/
def resolveTrace (handler : Option CallbackHandler)
    (stored : Option Trace) : Option Trace :=
  let fromHandler : Option Trace :=
    match handler with
    | some h => h.trace
    | none => none
  match fromHandler with
  | some t => some t
  | none => stored

/-- The `CallbackHandler(...)` construction shared by the three hooks that
build one, parameterized by the context supplying user and session ids. -/
def mkHandler (s : Settings) (cat : CatState) : CallbackHandler :=
  { hid := cat.next_hid
    public_key := s.langfuse_public_key.getD ""
    secret_key := s.langfuse_secret_key.getD ""
    host := s.hostOrDefault
    user_id := cat.user_id
    session_id := cat.session_id
    trace := none }

/-- Hook `agent_prompt_prefix`: inject the CallbackHandler before the LLM
call.  The whole body is a `try` whose `finally` unconditionally sets the
injected flag; the function always returns the prefix it received. -/
def agent_prompt_prefix (o : Oracle) (s : Settings) (pfx : String)
    (cat : CatState) : String × CatState × List Event :=
  let body : CatState × List Event :=
    if !o.settingsLoadOk then (cat, [Event.errorLogged])
    else if !(tracingEnabled s) then (cat, [])
    else if cat.langfuse_handler_injected then (cat, [])
    else if truthyKey s.langfuse_public_key && truthyKey s.langfuse_secret_key then
      if o.handlerCtorOk then
        let h := mkHandler s cat
        ({ cat with
            llm_callbacks := some ((cat.llm_callbacks.getD []) ++ [h.hid])
            langfuse_handler := some h
            next_hid := cat.next_hid + 1 },
         [Event.handlerCreated cat.next_hid])
      else (cat, [Event.errorLogged])
    else (cat, [])
  (pfx, { body.1 with langfuse_handler_injected := true }, body.2)

/-- Model of the external model-invocation layer: when an armed handler is
registered in the callbacks, the langfuse CallbackHandler lazily creates
the turn's trace on the first LLM execution (behaviour of the langfuse
library, documented in the plugin's module docstring). -/
def llmInvoke (cat : CatState) : CatState × List Event :=
  match cat.langfuse_handler with
  | some h =>
    if h.trace = none ∧ h.hid ∈ cat.llm_callbacks.getD [] then
      let t : Trace := { id := cat.next_trace_id }
      ({ cat with
          langfuse_handler := some { h with trace := some t }
          next_trace_id := cat.next_trace_id + 1 },
       [Event.traceCreated t.id "LLM Trace" cat.user_id cat.session_id
          cat.user_message_text])
    else (cat, [])
  | none => (cat, [])

/-- Tail of `agent_fast_reply` once `current_trace` is resolved: record the
span, then flush the handler; failures here reach the hook's outer except
clause (no cleanup exists in this hook). -/
def agent_fast_reply_afterTrace (o : Oracle) (input_text output_text : String)
    (handler : Option CallbackHandler) (t : Trace) (cat1 : CatState)
    (evs : List Event) : CatState × List Event :=
  if o.spanOk then
    let evs1 := evs ++
      [Event.spanRecorded t.id "agent_fast_reply" input_text output_text]
    match handler with
    | some h =>
      if o.handlerFlushOk then (cat1, evs1 ++ [Event.handlerFlushed h.hid])
      else (cat1, evs1 ++ [Event.errorLogged])
    | none => (cat1, evs1)
  else (cat1, evs ++ [Event.errorLogged])

/-- Tail of `agent_fast_reply` once `handler` is resolved: reuse the
handler's trace, else the stored fast-reply trace, else create one
explicitly through a fresh `Langfuse` client (that creation's failure, or
a missing handler, returns the payload early). -/
def agent_fast_reply_afterHandler (o : Oracle) (s : Settings)
    (input_text output_text : String) (handler : Option CallbackHandler)
    (cat1 : CatState) (evs : List Event) : CatState × List Event :=
  match resolveTrace handler cat1.langfuse_fast_reply_trace with
  | some t => agent_fast_reply_afterTrace o input_text output_text handler t cat1 evs
  | none =>
    match handler with
    | some _ =>
      if o.clientCtorOk then
        if o.traceCreateOk then
          let client : LangfuseClient :=
            { public_key := s.langfuse_public_key.getD ""
              secret_key := s.langfuse_secret_key.getD ""
              host := s.hostOrDefault }
          let t : Trace := { id := cat1.next_trace_id }
          let cat2 := { cat1 with
            langfuse_client := some client
            langfuse_fast_reply_trace := some t
            next_trace_id := cat1.next_trace_id + 1 }
          agent_fast_reply_afterTrace o input_text output_text handler t cat2
            (evs ++
              [Event.clientCreated,
               Event.traceCreated t.id "Agent Fast Reply Trace"
                 cat1.user_id cat1.session_id input_text])
        else (cat1, evs ++ [Event.clientCreated, Event.errorLogged])
      else (cat1, evs ++ [Event.errorLogged])
    | none => (cat1, evs ++ [Event.warningLogged])

/-- Hook `agent_fast_reply` (priority -1): trace replies returned after
recall but before the LLM.  The whole body is wrapped in one `try`; the
explicit trace creation has its own inner `try` that returns the payload
early on failure, and a missing handler is a logged warning followed by an
early return.  The payload dictionary is returned unmodified on every
path. -/
def agent_fast_reply (o : Oracle) (s : Settings) (fr : Dict)
    (cat : CatState) : Dict × CatState × List Event :=
  let keysOk := truthyKey s.langfuse_public_key && truthyKey s.langfuse_secret_key
  let input_text := cat.user_message_text
  let output_text := (dictGet fr "output").getD ""
  let body : CatState × List Event :=
    if !o.settingsLoadOk then (cat, [Event.errorLogged])
    else if !(tracingEnabled s) then (cat, [])
    else if !(dictHasKey fr "output") then (cat, [])
    else
      match cat.langfuse_handler with
      | some h =>
        agent_fast_reply_afterHandler o s input_text output_text (some h) cat []
      | none =>
        if keysOk then
          if o.handlerCtorOk then
            let h := mkHandler s cat
            agent_fast_reply_afterHandler o s input_text output_text (some h)
              { cat with langfuse_handler := some h, next_hid := cat.next_hid + 1 }
              [Event.handlerCreated cat.next_hid]
          else (cat, [Event.errorLogged])
        else agent_fast_reply_afterHandler o s input_text output_text none cat []
  (fr, body.1, body.2)

/-- The trailing cleanup block of `fast_reply`: detach the handler from
the model callbacks and delete all four ephemeral attributes from the
context. -/
def fast_reply_cleanup (handler : Option CallbackHandler) (cat1 : CatState)
    (evs : List Event) : CatState × List Event :=
  let cbs' : Option (List Nat) :=
    match handler, cat1.llm_callbacks with
    | some h, some cbs => some (cbs.filter (fun c => c != h.hid))
    | _, _ => cat1.llm_callbacks
  ({ cat1 with
      llm_callbacks := cbs'
      langfuse_handler := none
      langfuse_handler_injected := false
      langfuse_fast_reply_trace := none
      langfuse_client := none }, evs)

/-- The span/update/flush block of `fast_reply` guarded by
`if current_trace:`, all of whose failures are caught by inner handlers
before the cleanup runs. -/
def fast_reply_afterTrace (o : Oracle) (input_text output_text : String)
    (handler : Option CallbackHandler) (current : Option Trace)
    (cat1 : CatState) (evs : List Event) : CatState × List Event :=
  match current with
  | none => fast_reply_cleanup handler cat1 evs
  | some t =>
    if o.spanOk then
      let evs1 := evs ++
        [Event.spanRecorded t.id "fast_reply" input_text output_text]
      let evs2 :=
        if o.traceUpdateOk then
          evs1 ++ [Event.traceUpdated t.id output_text input_text]
        else evs1 ++ [Event.errorLogged]
      match handler with
      | some h =>
        if o.handlerFlushOk then
          let evs3 := evs2 ++ [Event.handlerFlushed h.hid]
          match cat1.langfuse_client with
          | some _ =>
            if o.clientFlushOk then
              fast_reply_cleanup handler cat1 (evs3 ++ [Event.clientFlushed])
            else fast_reply_cleanup handler cat1 (evs3 ++ [Event.errorLogged])
          | none => fast_reply_cleanup handler cat1 evs3
        else fast_reply_cleanup handler cat1 (evs2 ++ [Event.errorLogged])
      | none =>
        match cat1.langfuse_client with
        | some _ =>
          if o.clientFlushOk then
            fast_reply_cleanup handler cat1 (evs2 ++ [Event.clientFlushed])
          else fast_reply_cleanup handler cat1 (evs2 ++ [Event.errorLogged])
        | none => fast_reply_cleanup handler cat1 evs2
    else fast_reply_cleanup handler cat1 (evs ++ [Event.errorLogged])

/-- Trace resolution in `fast_reply`: the handler's trace, else the stored
fast-reply trace, else explicit creation — whose failure returns the
payload early, skipping the cleanup block. -/
def fast_reply_afterHandler (o : Oracle) (s : Settings)
    (input_text output_text : String) (handler : Option CallbackHandler)
    (cat1 : CatState) (evs : List Event) : CatState × List Event :=
  match resolveTrace handler cat1.langfuse_fast_reply_trace with
  | some t => fast_reply_afterTrace o input_text output_text handler (some t) cat1 evs
  | none =>
    match handler with
    | some _ =>
      if o.clientCtorOk then
        if o.traceCreateOk then
          let client : LangfuseClient :=
            { public_key := s.langfuse_public_key.getD ""
              secret_key := s.langfuse_secret_key.getD ""
              host := s.hostOrDefault }
          let t : Trace := { id := cat1.next_trace_id }
          let cat2 := { cat1 with
            langfuse_client := some client
            langfuse_fast_reply_trace := some t
            next_trace_id := cat1.next_trace_id + 1 }
          fast_reply_afterTrace o input_text output_text handler (some t) cat2
            (evs ++
              [Event.clientCreated,
               Event.traceCreated t.id "Fast Reply Trace"
                 cat1.user_id cat1.session_id input_text])
        else (cat1, evs ++ [Event.clientCreated, Event.errorLogged])
      else (cat1, evs ++ [Event.errorLogged])
    | none => fast_reply_afterTrace o input_text output_text none none cat1 evs

/-- Hook `fast_reply` (priority -1): trace early replies that short-circuit
the pipeline before recall/agent/LLM, then clean up the context inline
because the finalizer will not run on this path.  The explicit trace
creation has an inner `try` that returns the payload early on failure —
skipping the cleanup block — while span/update/flush failures are caught
by inner handlers and still reach the cleanup.  The payload dictionary is
returned unmodified on every path. -/
def fast_reply (o : Oracle) (s : Settings) (fr : Dict)
    (cat : CatState) : Dict × CatState × List Event :=
  let keysOk := truthyKey s.langfuse_public_key && truthyKey s.langfuse_secret_key
  let input_text := cat.user_message_text
  let output_text := (dictGet fr "output").getD ""
  let body : CatState × List Event :=
    if !o.settingsLoadOk then (cat, [Event.errorLogged])
    else if !(tracingEnabled s) then (cat, [])
    else if !(dictHasKey fr "output") then (cat, [])
    else
      match cat.langfuse_handler with
      | some h => fast_reply_afterHandler o s input_text output_text (some h) cat []
      | none =>
        if keysOk then
          if o.handlerCtorOk then
            let h := mkHandler s cat
            fast_reply_afterHandler o s input_text output_text (some h)
              { cat with langfuse_handler := some h, next_hid := cat.next_hid + 1 }
              [Event.handlerCreated cat.next_hid]
          else (cat, [Event.errorLogged])
        else fast_reply_afterHandler o s input_text output_text none cat []
  (fr, body.1, body.2)

/-- Hook `before_cat_sends_message`: finalize the trace (update it with the
user input and final output, attach its id to the outgoing message) and,
in a `finally` clause, detach the handler from the callbacks and delete
the `langfuse_handler` / `langfuse_handler_injected` /
`langfuse_fast_reply_trace` attributes — the source deletes only these
three; `langfuse_client` is not removed. -/
def before_cat_sends_message (o : Oracle) (msg : Message)
    (cat : CatState) : Message × CatState × List Event :=
  let handler := cat.langfuse_handler
  let current_trace : Option Trace :=
    resolveTrace handler cat.langfuse_fast_reply_trace
  let updated : Option Nat × List Event :=
    match current_trace with
    | some t =>
      if o.traceUpdateOk then
        (some t.id, [Event.traceUpdated t.id msg.content cat.user_message_text])
      else (none, [Event.errorLogged])
    | none => (none, [])
  let msg' : Message :=
    match updated.1 with
    | some tid => { msg with langfuse_trace_id := some tid }
    | none => msg
  let cbs' : Option (List Nat) :=
    match handler, cat.llm_callbacks with
    | some h, some cbs => some (cbs.filter (fun c => c != h.hid))
    | _, _ => cat.llm_callbacks
  let cat' : CatState :=
    { cat with
        llm_callbacks := cbs'
        langfuse_handler := none
        langfuse_handler_injected := false
        langfuse_fast_reply_trace := none }
  (msg', cat', updated.2)

/-- Hook `on_cat_shutdown`: best-effort flush of a still-attached handler;
never mutates the context. -/
def on_cat_shutdown (o : Oracle) (cat : CatState) : CatState × List Event :=
  match cat.langfuse_handler with
  | some h =>
    if o.handlerFlushOk then (cat, [Event.handlerFlushed h.hid])
    else (cat, [Event.errorLogged])
  | none => (cat, [])

/-- The normal model-invocation termination path of a turn:
`agent_prompt_prefix`, then the LLM runs with the registered handler, then
the finalizer. -/
def normalTurn (o : Oracle) (s : Settings) (pfx : String) (msg : Message)
    (cat : CatState) : Message × CatState × List Event :=
  let r1 := agent_prompt_prefix o s pfx cat
  let r2 := llmInvoke r1.2.1
  let r3 := before_cat_sends_message o msg r2.1
  (r3.1, r3.2.1, r1.2.2 ++ r2.2 ++ r3.2.2)

/-- The agent-level short-circuit termination path of a turn:
`agent_prompt_prefix`, then a plugin answers in `agent_fast_reply`, then
the finalizer still runs. -/
def agentShortCircuitTurn (o : Oracle) (s : Settings) (pfx : String)
    (fr : Dict) (msg : Message) (cat : CatState) :
    Dict × Message × CatState × List Event :=
  let r1 := agent_prompt_prefix o s pfx cat
  let r2 := agent_fast_reply o s fr r1.2.1
  let r3 := before_cat_sends_message o msg r2.2.1
  (r2.1, r3.1, r3.2.1, r1.2.2 ++ r2.2.2 ++ r3.2.2)

/-- The pre-agent short-circuit termination path of a turn: only
`fast_reply` runs; neither `agent_prompt_prefix` nor the finalizer fires. -/
def preAgentShortCircuitTurn (o : Oracle) (s : Settings) (fr : Dict)
    (cat : CatState) : Dict × CatState × List Event :=
  fast_reply o s fr cat

/-- Number of backend traces created in an event log. -/
def traceCreatedCount (evs : List Event) : Nat :=
  (evs.filter (fun e =>
    match e with
    | Event.traceCreated _ _ _ _ _ => true
    | _ => false)).length

/-- The pydantic settings schema of `src/settings.py`
(`LangfuseConnectorSettings`), with its declared field defaults — note the
schema default for `enable_tracing` is `False`, unlike the runtime lookup
default used by the hooks. -/
structure LangfuseConnectorSettings where
  enable_tracing : Bool := false
  langfuse_public_key : String := ""
  langfuse_secret_key : String := ""
  langfuse_host : String := "https://cloud.langfuse.com"
deriving DecidableEq, Repr

/-- The settings object produced by the schema's declared defaults. -/
def defaultLangfuseConnectorSettings : LangfuseConnectorSettings := {}

/-- A stored conversation-turn record in the vector store, as the spec's
Feedback Correlator sees it: keyed by a message identifier inside its
metadata, owned by a user, holding free text plus feedback metadata. -/
structure StoredTurnRecord where
  record_id : String
  content : String
  meta_message_id : Option String
  meta_user_id : Option String
  meta_outcome : Option String
  meta_problem : Option String
  meta_description : Option String
  meta_legacy_rating : Option Int
deriving DecidableEq, Repr

/-- Observable effects of a feedback submission: the local storage
mutation and the remote score POST. -/
inductive FeedbackEvent where
  | storeUpdated (record_id : String)
  | scorePosted (traceId name : String) (value : Int) (comment : String)
deriving DecidableEq, Repr

/-- Modelled from the spec: the repository's Feedback Correlator endpoint
(`submitFeedback`) is not among the files under src/; this definition
follows section 4.4 of the specification word for word.  Validation
rejects (false, no mutation, no remote call) when the rating is not 0 or
1, or any of messageId/traceId/userId is absent; then a single matching
record is looked up by messageId, its owner must equal the supplied
userId, the record's metadata is updated with the normalized outcome, and
— only when tracing is enabled — a score is posted to the backend. -/
def submitFeedback (enableTracing : Bool) (store : List StoredTurnRecord)
    (messageId traceId userId : Option String) (rating : Int)
    (problem description : Option String) :
    Bool × List StoredTurnRecord × List FeedbackEvent :=
  if ¬(rating = 0 ∨ rating = 1) then (false, store, [])
  else
    match messageId, traceId, userId with
    | some mid, some tid, some uid =>
      match store.find? (fun r => r.meta_message_id == some mid) with
      | none => (false, store, [])
      | some r =>
        if r.meta_user_id ≠ some uid then (false, store, [])
        else
          let outcome := if rating = 1 then "positive" else "negative"
          let r' := { r with
            meta_outcome := some outcome
            meta_problem := problem
            meta_description := description
            meta_legacy_rating := none }
          let store' := store.map (fun x => if x.record_id = r.record_id then r' else x)
          let evs := [FeedbackEvent.storeUpdated r.record_id]
          if ¬enableTracing then (true, store', evs)
          else
            let score : String × Int × String :=
              if rating = 1 then ("user-feedback-positive", 1, "")
              else (problem.getD "user-feedback-negative", 0, description.getD "")
            (true, store',
             evs ++ [FeedbackEvent.scorePosted tid score.1 score.2.1 score.2.2])
    | _, _, _ => (false, store, [])

/-- The per-turn cleanup invariant of the spec's Per-Turn Context Store:
none of the four ephemeral fields survives on the context. -/
def clearedState (c : CatState) : Prop :=
  c.langfuse_handler = none ∧ c.langfuse_handler_injected = false ∧
  c.langfuse_fast_reply_trace = none ∧ c.langfuse_client = none

instance (c : CatState) : Decidable (clearedState c) := by
  unfold clearedState; infer_instance

/-- Concrete fixture: settings with tracing enabled and both credentials. -/
def exampleSettings : Settings := ⟨some true, some "pk", some "sk", none⟩

/-- Concrete fixture: every backend call succeeds. -/
def allOk : Oracle := ⟨true, true, true, true, true, true, true, true⟩

/-- Concrete fixture: the explicit `lf_client.trace(...)` call raises;
everything else succeeds. -/
def traceCreateFails : Oracle := ⟨true, true, true, false, true, true, true, true⟩

/-- Concrete fixture: a context at the start of a turn, with no leftover
ephemeral fields. -/
def cleanCat : CatState :=
  { user_id := "u", session_id := "sess", user_message_text := "hi"
    llm_callbacks := some [], langfuse_handler := none
    langfuse_handler_injected := false, langfuse_fast_reply_trace := none
    langfuse_client := none, next_hid := 0, next_trace_id := 0 }

/-- Concrete fixture: a short-circuit payload carrying an output. -/
def outputPayload : Dict := [("output", "ok")]

/-- Concrete fixture: an outgoing message without a trace id. -/
def emptyMessage : Message := { content := "reply", langfuse_trace_id := none }

/-- Concrete fixture: a handler whose internal trace has id 5. -/
def handlerWithTrace5 : CallbackHandler :=
  { hid := 0, public_key := "pk", secret_key := "sk", host := "h"
    user_id := "u", session_id := "sess", trace := some { id := 5 } }

/-- Concrete fixture: a context carrying both a handler-internal trace
(id 5) and a stored fast-reply trace (id 9). -/
def catBothTraces : CatState :=
  { cleanCat with
      langfuse_handler := some handlerWithTrace5
      langfuse_fast_reply_trace := some { id := 9 } }

/-- The `finally` clause of `agent_prompt_prefix` marks the context as
injected on every path, including early returns and caught exceptions. -/
theorem agent_prompt_prefix_sets_injected (o : Oracle) (s : Settings)
    (pfx : String) (cat : CatState) :
    (( agent_prompt_prefix o s pfx cat).2.1).langfuse_handler_injected = true :=
  rfl

/-- Once the injected flag is set, `agent_prompt_prefix` is a pure no-op
on the context. -/
theorem agent_prompt_prefix_noop_of_injected (o : Oracle) (s : Settings)
    (pfx : String) (cat : CatState)
    (h : cat.langfuse_handler_injected = true) :
    ( agent_prompt_prefix o s pfx cat).2.1 = cat := by
  obtain ⟨u, sid, txt, cbs, lh, inj, frt, lc, nh, nt⟩ := cat
  simp only at h
  subst h
  unfold agent_prompt_prefix
  split
  · rfl
  · split
    · rfl
    · rfl

/-- C4: invoking the pre-model hook (agent_prompt_prefix) twice in the
same turn registers at most one handler — the second invocation leaves
`cat._llm.callbacks` and `cat.langfuse_handler` untouched, because the
injected flag is set by the first invocation even when handler creation
failed. -/
theorem C4_agent_prompt_prefix_idempotent (o1 o2 : Oracle) (s1 s2 : Settings)
    (p1 p2 : String) (cat : CatState) :
    (( agent_prompt_prefix o2 s2 p2 (( agent_prompt_prefix o1 s1 p1 cat).2.1)).2.1).llm_callbacks
       = (( agent_prompt_prefix o1 s1 p1 cat).2.1).llm_callbacks ∧
    (( agent_prompt_prefix o2 s2 p2 (( agent_prompt_prefix o1 s1 p1 cat).2.1)).2.1).langfuse_handler
       = (( agent_prompt_prefix o1 s1 p1 cat).2.1).langfuse_handler ∧
    (( agent_prompt_prefix o1 s1 p1 cat).2.1).langfuse_handler_injected = true := by
  have h2 := agent_prompt_prefix_noop_of_injected o2 s2 p2
    (( agent_prompt_prefix o1 s1 p1 cat).2.1)
    (agent_prompt_prefix_sets_injected o1 s1 p1 cat)
  exact ⟨by rw [h2], by rw [h2], agent_prompt_prefix_sets_injected o1 s1 p1 cat⟩

/-- C8: when tracing is disabled in the settings, or when the public key
or the secret key is absent (or empty), `agent_prompt_prefix` stores no
handler on the context, makes no remote connection (its event log is
empty), returns the prefix unchanged, and still sets the injected flag so
the transition fires at most once per turn. -/
theorem C8_agent_prompt_prefix_disabled_or_keyless (o : Oracle)
    (s : Settings) (pfx : String) (cat : CatState)
    (hload : o.settingsLoadOk = true)
    (h : tracingEnabled s = false ∨ truthyKey s.langfuse_public_key = false ∨
         truthyKey s.langfuse_secret_key = false) :
    ( agent_prompt_prefix o s pfx cat).1 = pfx ∧
    (( agent_prompt_prefix o s pfx cat).2.1).langfuse_handler = cat.langfuse_handler ∧
    ( agent_prompt_prefix o s pfx cat).2.2 = [] ∧
    (( agent_prompt_prefix o s pfx cat).2.1).langfuse_handler_injected = true := by
  refine ⟨rfl, ?_, ?_, rfl⟩ <;>
  · unfold agent_prompt_prefix
    rcases h with h | h | h <;> simp [hload, h]

/-- C8 witness at a concrete input: tracing disabled in the stored
settings, both credentials present. -/
theorem C8_witness :
    ( agent_prompt_prefix allOk ⟨some false, some "pk", some "sk", none⟩ "px" cleanCat).1 = "px" ∧
    (( agent_prompt_prefix allOk ⟨some false, some "pk", some "sk", none⟩ "px" cleanCat).2.1).langfuse_handler
      = cleanCat.langfuse_handler ∧
    ( agent_prompt_prefix allOk ⟨some false, some "pk", some "sk", none⟩ "px" cleanCat).2.2 = [] ∧
    (( agent_prompt_prefix allOk ⟨some false, some "pk", some "sk", none⟩ "px" cleanCat).2.1).langfuse_handler_injected = true :=
  C8_agent_prompt_prefix_disabled_or_keyless allOk
    ⟨some false, some "pk", some "sk", none⟩ "px" cleanCat rfl (Or.inl rfl)

/-- C10: the hooks' runtime lookup of `enable_tracing` defaults to `True`
when the key is absent from the stored settings — each gated hook behaves
exactly as if the key were stored as `True` — even though the settings
schema declares the field with default `False`; the runtime gate is off
only when the stored settings carry the key with value `False`. -/
theorem C10_runtime_tracing_default_disagrees_with_schema :
    (∀ (pk sk host : Option String) (o : Oracle) (pfx : String) (cat : CatState),
       agent_prompt_prefix o ⟨none, pk, sk, host⟩ pfx cat
         = agent_prompt_prefix o ⟨some true, pk, sk, host⟩ pfx cat) ∧
    (∀ (pk sk host : Option String) (o : Oracle) (fr : Dict) (cat : CatState),
       agent_fast_reply o ⟨none, pk, sk, host⟩ fr cat
         = agent_fast_reply o ⟨some true, pk, sk, host⟩ fr cat) ∧
    (∀ (pk sk host : Option String) (o : Oracle) (fr : Dict) (cat : CatState),
       fast_reply o ⟨none, pk, sk, host⟩ fr cat
         = fast_reply o ⟨some true, pk, sk, host⟩ fr cat) ∧
    (∀ s : Settings, tracingEnabled s = false ↔ s.enable_tracing = some false) ∧
    defaultLangfuseConnectorSettings.enable_tracing = false := by
  refine ⟨fun pk sk host o pfx cat => rfl,
          fun pk sk host o fr cat => rfl,
          fun pk sk host o fr cat => rfl,
          fun s => ?_, rfl⟩
  cases h : s.enable_tracing with
  | none => simp [tracingEnabled, h]
  | some b => cases b <;> simp [tracingEnabled, h]

/-- C7: whatever the settings and whichever backend calls fail, every hook
returns (it is a total function) and leaves its payload's content
untouched: `agent_prompt_prefix` returns the prefix it received,
`agent_fast_reply` and `fast_reply` return the very dictionary they were
given, `on_cat_shutdown` leaves the context unchanged, and
`before_cat_sends_message` returns its message with the content unchanged
and at most the trace-id field rewritten. -/
theorem C7_no_failure_alters_payload (o : Oracle) (s : Settings)
    (pfx : String) (fr1 fr2 : Dict) (msg : Message)
    (cat1 cat2 cat3 cat4 cat5 : CatState) :
    ( agent_prompt_prefix o s pfx cat1).1 = pfx ∧
    (agent_fast_reply o s fr1 cat2).1 = fr1 ∧
    (fast_reply o s fr2 cat3).1 = fr2 ∧
    (on_cat_shutdown o cat4).1 = cat4 ∧
    ((before_cat_sends_message o msg cat5).1).content = msg.content ∧
    (((before_cat_sends_message o msg cat5).1).langfuse_trace_id = msg.langfuse_trace_id ∨
       ∃ tid, ((before_cat_sends_message o msg cat5).1).langfuse_trace_id = some tid) := by
  refine ⟨rfl, rfl, rfl, ?_, ?_, ?_⟩
  · unfold on_cat_shutdown
    split
    · split <;> rfl
    · rfl
  · rcases hres : resolveTrace cat5.langfuse_handler cat5.langfuse_fast_reply_trace with _ | t <;>
      cases hupd : o.traceUpdateOk <;>
      simp [before_cat_sends_message, hres, hupd]
  · rcases hres : resolveTrace cat5.langfuse_handler cat5.langfuse_fast_reply_trace with _ | t <;>
      cases hupd : o.traceUpdateOk <;>
      simp [before_cat_sends_message, hres, hupd]

/-- C1: evaluation at the failing input.  On an agent-level short-circuit
turn (tracing enabled, both credentials set, every backend call
succeeding, clean initial context), `agent_fast_reply` stores the
secondary `Langfuse` client on the context, and the finalizer
`before_cat_sends_message` then deletes only `langfuse_handler`,
`langfuse_handler_injected` and `langfuse_fast_reply_trace`: the
`langfuse_client` field survives the turn, contradicting the claim that
all four ephemeral fields are absent after the finalizer runs. -/
theorem C1_finalizer_leaves_langfuse_client :
    ((agentShortCircuitTurn allOk exampleSettings "" outputPayload emptyMessage cleanCat).2.2.1).langfuse_client
      = some { public_key := "pk", secret_key := "sk",
               host := "https://cloud.langfuse.com" } ∧
    ((agentShortCircuitTurn allOk exampleSettings "" outputPayload emptyMessage cleanCat).2.2.1).langfuse_handler = none ∧
    ((agentShortCircuitTurn allOk exampleSettings "" outputPayload emptyMessage cleanCat).2.2.1).langfuse_handler_injected = false ∧
    ((agentShortCircuitTurn allOk exampleSettings "" outputPayload emptyMessage cleanCat).2.2.1).langfuse_fast_reply_trace = none := by
  exact ⟨rfl, rfl, rfl, rfl⟩

/-- C2 counterexample: a turn terminating via `fast_reply` with tracing
enabled and an output payload, on which backend trace creation fails.
The hook returns early from the failed creation and never reaches its
cleanup block, so the context still carries `langfuse_handler` afterwards
— refuting the claim that the cleanup happens even when backend trace
creation failed. -/
theorem C2_counterexample_creation_failure_skips_cleanup :
    tracingEnabled exampleSettings = true ∧
    dictHasKey outputPayload "output" = true ∧
    traceCreateFails.traceCreateOk = false ∧
    ((fast_reply traceCreateFails exampleSettings outputPayload cleanCat).2.1).langfuse_handler
      = some (mkHandler exampleSettings cleanCat) := by
  exact ⟨rfl, rfl, rfl, rfl⟩

/-- All four ephemeral fields are gone after `fast_reply_cleanup`. -/
theorem fast_reply_cleanup_cleared (handler : Option CallbackHandler)
    (cat1 : CatState) (evs : List Event) :
    clearedState (fast_reply_cleanup handler cat1 evs).1 :=
  ⟨rfl, rfl, rfl, rfl⟩

/-- Every branch of the span/update/flush block of `fast_reply` ends in
the cleanup. -/
theorem fast_reply_afterTrace_cleared (o : Oracle) (it ot : String)
    (handler : Option CallbackHandler) (current : Option Trace)
    (cat1 : CatState) (evs : List Event) :
    clearedState (fast_reply_afterTrace o it ot handler current cat1 evs).1 := by
  unfold fast_reply_afterTrace
  rcases current with _ | t
  · exact fast_reply_cleanup_cleared ..
  · cases o.spanOk
    · simp only [Bool.false_eq_true, if_false]
      exact fast_reply_cleanup_cleared ..
    · simp only [if_true]
      rcases handler with _ | h
      · rcases cat1.langfuse_client with _ | c
        · exact fast_reply_cleanup_cleared ..
        · cases o.clientFlushOk <;> simp <;> exact fast_reply_cleanup_cleared ..
      · cases o.handlerFlushOk
        · simp only [Bool.false_eq_true, if_false]
          exact fast_reply_cleanup_cleared ..
        · simp only [if_true]
          rcases cat1.langfuse_client with _ | c
          · exact fast_reply_cleanup_cleared ..
          · cases o.clientFlushOk <;> simp <;> exact fast_reply_cleanup_cleared ..

/-- When the secondary client construction and the explicit trace creation
succeed, every branch of the trace-resolution block of `fast_reply`
reaches the cleanup. -/
theorem fast_reply_afterHandler_cleared (o : Oracle) (s : Settings)
    (it ot : String) (handler : Option CallbackHandler) (cat1 : CatState)
    (evs : List Event)
    (hclient : o.clientCtorOk = true) (hcreate : o.traceCreateOk = true) :
    clearedState (fast_reply_afterHandler o s it ot handler cat1 evs).1 := by
  unfold fast_reply_afterHandler
  rcases hres : resolveTrace handler cat1.langfuse_fast_reply_trace with _ | t
  · rcases handler with _ | h
    · exact fast_reply_afterTrace_cleared ..
    · simp only [hclient, hcreate, if_true]
      exact fast_reply_afterTrace_cleared ..
  · exact fast_reply_afterTrace_cleared ..

/-- C2 amended: for every turn terminating via `fast_reply` (tracing
enabled, payload carrying an `output` key) on which neither the handler
construction nor the explicit backend trace creation fails, the hook's
inline cleanup runs and the context afterwards carries none of the four
ephemeral fields — span, trace-update and flush failures included.  (When
trace creation or handler construction raises, the hook returns early and
the cleanup is skipped.) -/
theorem C2_fast_reply_cleanup_unless_creation_fails (o : Oracle)
    (s : Settings) (fr : Dict) (cat : CatState)
    (hload : o.settingsLoadOk = true)
    (htrace : tracingEnabled s = true)
    (hout : dictHasKey fr "output" = true)
    (hctor : o.handlerCtorOk = true)
    (hclient : o.clientCtorOk = true)
    (hcreate : o.traceCreateOk = true) :
    clearedState ((fast_reply o s fr cat).2.1) := by
  unfold fast_reply
  simp only [hload, htrace, hout, Bool.not_true, if_false, Bool.false_eq_true]
  rcases cat.langfuse_handler with _ | h
  · by_cases hk : (truthyKey s.langfuse_public_key && truthyKey s.langfuse_secret_key) = true
    · simp only [hk, hctor, if_true]
      exact fast_reply_afterHandler_cleared _ _ _ _ _ _ _ hclient hcreate
    · simp only [Bool.not_eq_true] at hk
      simp only [hk, Bool.false_eq_true, if_false]
      exact fast_reply_afterHandler_cleared _ _ _ _ _ _ _ hclient hcreate
  · exact fast_reply_afterHandler_cleared _ _ _ _ _ _ _ hclient hcreate

/-- C2 witness at a concrete input: with every backend call succeeding,
the pre-agent short-circuit turn leaves a fully cleaned context. -/
theorem C2_witness :
    clearedState ((fast_reply allOk exampleSettings outputPayload cleanCat).2.1) :=
  C2_fast_reply_cleanup_unless_creation_fails allOk exampleSettings
    outputPayload cleanCat rfl rfl rfl rfl rfl rfl

/-- C5: in each hook that resolves a trace, when the handler carries an
internal trace and a stored fast-reply trace exists simultaneously, the
handler-internal trace is the one selected: the resolution yields it, the
short-circuit hooks record their span on it and never on the stored one,
and the finalizer updates it and attaches its id to the message. -/
theorem C5_handler_trace_takes_priority (o : Oracle) (s : Settings)
    (fr : Dict) (msg : Message) (cat : CatState) (h : CallbackHandler)
    (t1 t2 : Trace)
    (hh : cat.langfuse_handler = some h)
    (hht : h.trace = some t1)
    (hst : cat.langfuse_fast_reply_trace = some t2)
    (hne : t1.id ≠ t2.id)
    (hload : o.settingsLoadOk = true)
    (htrace : tracingEnabled s = true)
    (hout : dictHasKey fr "output" = true)
    (hspan : o.spanOk = true)
    (hupd : o.traceUpdateOk = true)
    (hflush : o.handlerFlushOk = true)
    (hcl : cat.langfuse_client = none) :
    resolveTrace cat.langfuse_handler cat.langfuse_fast_reply_trace = some t1 ∧
    (Event.spanRecorded t1.id "agent_fast_reply" cat.user_message_text
        ((dictGet fr "output").getD "") ∈ (agent_fast_reply o s fr cat).2.2 ∧
      ∀ n i ou, Event.spanRecorded t2.id n i ou ∉ (agent_fast_reply o s fr cat).2.2) ∧
    (Event.spanRecorded t1.id "fast_reply" cat.user_message_text
        ((dictGet fr "output").getD "") ∈ (fast_reply o s fr cat).2.2 ∧
      ∀ n i ou, Event.spanRecorded t2.id n i ou ∉ (fast_reply o s fr cat).2.2) ∧
    (((before_cat_sends_message o msg cat).1).langfuse_trace_id = some t1.id ∧
      Event.traceUpdated t1.id msg.content cat.user_message_text
        ∈ (before_cat_sends_message o msg cat).2.2 ∧
      ∀ ou i, Event.traceUpdated t2.id ou i ∉ (before_cat_sends_message o msg cat).2.2) := by
  have hne' : t2.id ≠ t1.id := Ne.symm hne
  refine ⟨?_, ⟨?_, ?_⟩, ⟨?_, ?_⟩, ?_, ?_, ?_⟩ <;>
    simp [agent_fast_reply, fast_reply, before_cat_sends_message,
      agent_fast_reply_afterHandler, agent_fast_reply_afterTrace,
      fast_reply_afterHandler, fast_reply_afterTrace, fast_reply_cleanup,
      resolveTrace, hh, hht, hst, hload, htrace, hout, hspan, hupd, hflush,
      hcl, hne']

/-- C5 witness at a concrete input: a handler whose internal trace has id
5 while the stored fast-reply trace has id 9. -/
theorem C5_witness :
    resolveTrace catBothTraces.langfuse_handler
      catBothTraces.langfuse_fast_reply_trace = some { id := 5 } :=
  (C5_handler_trace_takes_priority allOk exampleSettings outputPayload
    emptyMessage catBothTraces handlerWithTrace5 { id := 5 } { id := 9 }
    rfl rfl rfl (by decide) rfl rfl rfl rfl rfl rfl rfl).1

/-- C6: a turn ending on the normal model-invocation path with an active
trace returns a message carrying `langfuse_trace_id` equal to that
trace's id, while a turn ending via the pre-agent short-circuit hook
returns the reply payload unchanged, with no trace-identifier field. -/
theorem C6_trace_id_only_on_finalized_paths (o : Oracle) (s : Settings)
    (pfx : String) (fr : Dict) (msg : Message) (cat : CatState)
    (hload : o.settingsLoadOk = true)
    (htrace : tracingEnabled s = true)
    (hpk : truthyKey s.langfuse_public_key = true)
    (hsk : truthyKey s.langfuse_secret_key = true)
    (hctor : o.handlerCtorOk = true)
    (hupd : o.traceUpdateOk = true)
    (hinj : cat.langfuse_handler_injected = false)
    (hh : cat.langfuse_handler = none)
    (hfrt : cat.langfuse_fast_reply_trace = none)
    (hnotid : dictHasKey fr "langfuse_trace_id" = false) :
    ((normalTurn o s pfx msg cat).1).langfuse_trace_id = some cat.next_trace_id ∧
    Event.traceCreated cat.next_trace_id "LLM Trace" cat.user_id
        cat.session_id cat.user_message_text ∈ (normalTurn o s pfx msg cat).2.2 ∧
    (preAgentShortCircuitTurn o s fr cat).1 = fr ∧
    dictHasKey ((preAgentShortCircuitTurn o s fr cat).1) "langfuse_trace_id" = false := by
  refine ⟨?_, ?_, rfl, hnotid⟩ <;>
    simp [normalTurn, agent_prompt_prefix, llmInvoke,
      before_cat_sends_message, resolveTrace, mkHandler, traceCreatedCount,
      hload, htrace, hpk, hsk, hctor, hupd, hinj, hh, hfrt]

/-- C6 witness at a concrete input. -/
theorem C6_witness :
    ((normalTurn allOk exampleSettings "" emptyMessage cleanCat).1).langfuse_trace_id
      = some cleanCat.next_trace_id ∧
    Event.traceCreated cleanCat.next_trace_id "LLM Trace" cleanCat.user_id
        cleanCat.session_id cleanCat.user_message_text
      ∈ (normalTurn allOk exampleSettings "" emptyMessage cleanCat).2.2 ∧
    (preAgentShortCircuitTurn allOk exampleSettings outputPayload cleanCat).1 = outputPayload ∧
    dictHasKey ((preAgentShortCircuitTurn allOk exampleSettings outputPayload cleanCat).1)
        "langfuse_trace_id" = false :=
  C6_trace_id_only_on_finalized_paths allOk exampleSettings "" outputPayload
    emptyMessage cleanCat rfl rfl rfl rfl rfl rfl rfl rfl rfl rfl

/-- C3: with tracing enabled, both credentials present, a clean initial
context and every backend call succeeding, exactly one backend trace is
created during the turn on each of the three termination paths; moreover
whenever either short-circuit hook can resolve an existing trace (from the
handler or stored on the context), it creates none. -/
theorem C3_exactly_one_trace_per_turn (o : Oracle) (s : Settings)
    (pfx : String) (fr : Dict) (msg : Message) (cat : CatState)
    (ho : o = allOk)
    (htrace : tracingEnabled s = true)
    (hpk : truthyKey s.langfuse_public_key = true)
    (hsk : truthyKey s.langfuse_secret_key = true)
    (hh : cat.langfuse_handler = none)
    (hinj : cat.langfuse_handler_injected = false)
    (hfrt : cat.langfuse_fast_reply_trace = none)
    (hlc : cat.langfuse_client = none)
    (hout : dictHasKey fr "output" = true) :
    traceCreatedCount (normalTurn o s pfx msg cat).2.2 = 1 ∧
    traceCreatedCount (agentShortCircuitTurn o s pfx fr msg cat).2.2.2 = 1 ∧
    traceCreatedCount (preAgentShortCircuitTurn o s fr cat).2.2 = 1 ∧
    ∀ (cat2 : CatState) (t : Trace),
      resolveTrace cat2.langfuse_handler cat2.langfuse_fast_reply_trace = some t →
      traceCreatedCount (agent_fast_reply o s fr cat2).2.2 = 0 ∧
      traceCreatedCount (fast_reply o s fr cat2).2.2 = 0 := by
  subst ho
  refine ⟨?_, ?_, ?_, ?_⟩
  · simp [normalTurn, agent_prompt_prefix, llmInvoke,
      before_cat_sends_message, resolveTrace, mkHandler, allOk,
      traceCreatedCount, htrace, hpk, hsk, hh, hinj, hfrt, hlc]
  · simp [agentShortCircuitTurn, agent_prompt_prefix, agent_fast_reply,
      agent_fast_reply_afterHandler, agent_fast_reply_afterTrace,
      before_cat_sends_message, resolveTrace, mkHandler, allOk,
      traceCreatedCount, htrace, hpk, hsk, hh, hinj, hfrt, hlc, hout]
  · simp [preAgentShortCircuitTurn, fast_reply, fast_reply_afterHandler,
      fast_reply_afterTrace, fast_reply_cleanup, resolveTrace, mkHandler,
      allOk, traceCreatedCount, htrace, hpk, hsk, hh, hinj, hfrt, hlc, hout]
  · intro cat2 t hres
    constructor
    · rcases hlh : cat2.langfuse_handler with _ | h2
      · rw [hlh] at hres
        simp only [resolveTrace] at hres
        simp [agent_fast_reply, agent_fast_reply_afterHandler,
          agent_fast_reply_afterTrace, resolveTrace, mkHandler, allOk,
          traceCreatedCount, htrace, hpk, hsk, hout, hlh, hres]
      · rw [hlh] at hres
        simp [agent_fast_reply, agent_fast_reply_afterHandler,
          agent_fast_reply_afterTrace, allOk, traceCreatedCount,
          htrace, hpk, hsk, hout, hlh, hres]
    · rcases hlh : cat2.langfuse_handler with _ | h2 <;>
        rw [hlh] at hres <;>
        cases hc : cat2.langfuse_client
      · simp only [resolveTrace] at hres
        simp [fast_reply, fast_reply_afterHandler, fast_reply_afterTrace,
          fast_reply_cleanup, resolveTrace, mkHandler, allOk,
          traceCreatedCount, htrace, hpk, hsk, hout, hlh, hres, hc]
      · simp only [resolveTrace] at hres
        simp [fast_reply, fast_reply_afterHandler, fast_reply_afterTrace,
          fast_reply_cleanup, resolveTrace, mkHandler, allOk,
          traceCreatedCount, htrace, hpk, hsk, hout, hlh, hres, hc]
      · simp [fast_reply, fast_reply_afterHandler, fast_reply_afterTrace,
          fast_reply_cleanup, allOk, traceCreatedCount,
          htrace, hpk, hsk, hout, hlh, hres, hc]
      · simp [fast_reply, fast_reply_afterHandler, fast_reply_afterTrace,
          fast_reply_cleanup, allOk, traceCreatedCount,
          htrace, hpk, hsk, hout, hlh, hres, hc]

/-- C3 witness at a concrete input. -/
theorem C3_witness :
    traceCreatedCount (normalTurn allOk exampleSettings "" emptyMessage cleanCat).2.2 = 1 ∧
    traceCreatedCount (agentShortCircuitTurn allOk exampleSettings "" outputPayload emptyMessage cleanCat).2.2.2 = 1 ∧
    traceCreatedCount (preAgentShortCircuitTurn allOk exampleSettings outputPayload cleanCat).2.2 = 1 ∧
    ∀ (cat2 : CatState) (t : Trace),
      resolveTrace cat2.langfuse_handler cat2.langfuse_fast_reply_trace = some t →
      traceCreatedCount (agent_fast_reply allOk exampleSettings outputPayload cat2).2.2 = 0 ∧
      traceCreatedCount (fast_reply allOk exampleSettings outputPayload cat2).2.2 = 0 :=
  C3_exactly_one_trace_per_turn allOk exampleSettings "" outputPayload
    emptyMessage cleanCat rfl rfl rfl rfl rfl rfl rfl rfl rfl

/-- C9: `submitFeedback` returns false, leaves the store untouched and
performs no remote call (its effect log is empty) whenever the supplied
rating is not 0 or 1, or any of messageId, traceId, userId is absent. -/
theorem C9_submitFeedback_rejects_invalid (et : Bool)
    (store : List StoredTurnRecord)
    (messageId traceId userId : Option String) (rating : Int)
    (problem description : Option String)
    (h : ¬(rating = 0 ∨ rating = 1) ∨ messageId = none ∨ traceId = none ∨
         userId = none) :
    submitFeedback et store messageId traceId userId rating problem description
      = (false, store, []) := by
  unfold submitFeedback
  rcases h with h | h | h | h
  · simp [h]
  · subst h
    rcases hr : decide ¬(rating = 0 ∨ rating = 1) with _ | _ <;> simp_all
  · subst h
    rcases hr : decide ¬(rating = 0 ∨ rating = 1) with _ | _ <;> simp_all
  · subst h
    rcases hr : decide ¬(rating = 0 ∨ rating = 1) with _ | _ <;> simp_all

/-- C9 witness at a concrete input: rating 5 is rejected without touching
a one-record store or the backend. -/
theorem C9_witness :
    submitFeedback true
      [{ record_id := "r1", content := "c", meta_message_id := some "m1",
         meta_user_id := some "u1", meta_outcome := none,
         meta_problem := none, meta_description := none,
         meta_legacy_rating := some 1 }]
      (some "m1") (some "t1") (some "u1") 5 none none
      = (false,
         [{ record_id := "r1", content := "c", meta_message_id := some "m1",
            meta_user_id := some "u1", meta_outcome := none,
            meta_problem := none, meta_description := none,
            meta_legacy_rating := some 1 }], []) :=
  C9_submitFeedback_rejects_invalid true _ (some "m1") (some "t1")
    (some "u1") 5 none none (Or.inl (by decide))

end LangfuseConnector
